import Mathlib

/-!
Shallow embedding of the uSampler conversion scripts
(scripts/convert_open_unmix.py, convert_open_unmix_2stems.py,
convert_umx_to_tfjs.py, convert_to_onnx_only.py, download_models.py,
download_and_convert.py) together with theorems settling the stated
properties of the conversion pipeline.

External effects (package imports, network downloads, the PyTorch and
TensorFlow converters, the filesystem) are modelled as explicit oracle
arguments or explicit state, so every script-level control path is a pure
Lean function of those oracles.
-/

/-! ## Dependency checking (convert_open_unmix.py, check_dependencies) -/

/-- The module-name translation applied before each import attempt in
check_dependencies: dep.replace with minus mapped to underscore. -/
def pyModuleName (s : String) : String :=
  s.map (fun c => if c = '-' then '_' else c)

/-- The required list hard-coded in check_dependencies. -/
def requiredDeps : List String := ["tensorflowjs", "torch", "onnx", "onnx-tf"]

/-- check_dependencies (convert_open_unmix.py, lines 13-29): iterates over
all four required packages, collecting those whose import fails, and
returns False when any is missing. The import oracle stands for the
Python import machinery; the function performs no installation. -/
def check_dependencies (importable : String → Bool) : Bool × List String :=
  let missing := requiredDeps.filter (fun dep => !importable (pyModuleName dep))
  (missing.isEmpty, missing)

/-! ## Download progress reporting (download_models.py, show_progress) -/

/-- The percentage computed by the urlretrieve progress hook show_progress
(download_models.py, lines 28-31). Python floor division is Int.fdiv; the
total size reported by urllib may be nonpositive (unknown length), in which
case the code avoids division entirely and reports 0. -/
def show_progress_percent (block_num block_size : Nat) (total_size : Int) : Int :=
  let downloaded : Int := (block_num : Int) * (block_size : Int)
  if 0 < total_size then min 100 (Int.fdiv (downloaded * 100) total_size) else 0

/-! ## ONNX to TF.js conversion command (convert_open_unmix.py) -/

/-- The tensorflowjs_converter command line assembled by
convert_onnx_to_tfjs (convert_open_unmix.py, lines 39-51). The function
takes only the two paths; there is no parameter controlling precision. -/
def convert_onnx_to_tfjs_cmd (onnx_path output_path : String) : List String :=
  ["tensorflowjs_converter",
   "--input_format=onnx",
   "--output_format=tfjs_graph_model",
   "--quantize_float16",
   onnx_path,
   output_path]

/-! ## Model handles and synthetic input shapes -/

/-- The metadata a loaded model could expose to a shape negotiator: an
explicitly declared input shape, and an architecture-family tag with a
documented default. The scripts hold such a model object but never consult
either field when building the synthetic export input. -/
structure ModelHandle where
  declaredInputShape : Option (List Nat)
  architectureFamily : Option String
deriving DecidableEq, Repr

/-- Dummy input construction in convert_umx_to_tfjs.py (line 75): a
hard-coded torch.randn of shape [1, 2974], independent of the model. -/
def umx_tfjs_dummy_input_shape (_model : ModelHandle) : List Nat := [1, 2974]

/-- Dummy input construction in convert_to_onnx_only.py (line 66): a
hard-coded torch.randn of shape [1, 2, 2049, 10], read per the comment on
that line as batch, channels, freq, time; independent of the model. -/
def onnx_only_dummy_input_shape (_model : ModelHandle) : List Nat :=
  [1, 2, 2049, 10]

/-- Dummy input construction in convert_pytorch_to_onnx
(convert_open_unmix_2stems.py, line 59): torch.randn of shape
[1, 2, 44100], read as batch, channels, time. -/
def twostems_dummy_input_shape (_model : ModelHandle) : List Nat :=
  [1, 2, 44100]

/-! ## Dynamic axes passed to torch.onnx.export -/

/-- dynamic_axes for the audio input in convert_pytorch_to_onnx
(convert_open_unmix_2stems.py, lines 69-72): axis 2 is flagged dynamic and
labelled time. -/
def twostems_input_dynamic_axes : List (Nat × String) := [(2, "time")]

/-- Index of the time dimension in the [1, 2, 44100] dummy input of
convert_open_unmix_2stems.py, per the comment on line 57: the layout is
batch, channels, time, so time is axis 2. -/
def twostems_time_axis : Nat := 2

/-- dynamic_axes for the magnitude_spectrogram input in
convert_to_onnx_only.py (lines 77-80): axis 0 is labelled batch and axis 1
is labelled features; no other axis is flagged. -/
def onnx_only_input_dynamic_axes : List (Nat × String) :=
  [(0, "batch"), (1, "features")]

/-- Index of the time dimension in the [1, 2, 2049, 10] dummy input of
convert_to_onnx_only.py: the comment on line 66 gives the layout batch,
channels, freq, time, and line 58 notes that the time-frame count varies,
so the variable-length time dimension is axis 3. -/
def onnx_only_time_axis : Nat := 3

/-! ## Raw checkpoints (download_and_convert.py) -/

/-- A raw PyTorch checkpoint as stored in the downloaded umx .pth files: a
bare state dict of named weight tensors, carrying no architecture schema. -/
structure RawCheckpoint where
  stateDict : List (String × List Int)
deriving DecidableEq, Repr

/-- load_pytorch_model (download_and_convert.py, lines 36-49): torch.load
is the oracle; on success the raw checkpoint itself is returned as the
loaded model, on failure None is returned after printing. No exception
ever propagates and no structural validation occurs. -/
def load_pytorch_model (torchLoad : Except String RawCheckpoint) :
    Option RawCheckpoint :=
  match torchLoad with
  | .ok checkpoint => some checkpoint
  | .error _ => none

/-- Step 2 of download_and_convert.main (lines 74-78): every stem whose
torch.load succeeded is kept, keyed by stem, with the raw checkpoint as
its model. -/
def dac_load_models (torchLoad : String → Except String RawCheckpoint)
    (downloaded : List String) : List (String × RawCheckpoint) :=
  downloaded.filterMap (fun stem =>
    match load_pytorch_model (torchLoad stem) with
    | some m => some (stem, m)
    | none => none)

/-! ## Filesystem model and weight-cache behaviour -/

/-- A filesystem: each path either holds file bytes or is absent. -/
def FS : Type := String → Option (List Nat)

/-- One iteration of the download loop in download_models.main
(download_models.py, lines 50-60): when the target file already exists the
download is skipped and the filesystem is untouched; otherwise
download_file runs urlretrieve through the network oracle, writing the
fetched bytes on success. The Bool records whether the file ended up in
the downloaded list. -/
def dm_process_stem (download : String → Option (List Nat)) (fs : FS)
    (path url : String) : FS × Bool :=
  if (fs path).isSome then (fs, true)
  else
    match download url with
    | some bytes => (fun p => if p = path then some bytes else fs p, true)
    | none => (fs, false)

/-- One iteration of the download loop in download_and_convert.main
(download_and_convert.py, lines 58-61): download_model is invoked
unconditionally — there is no existence check — and urlretrieve overwrites
the target path with whatever the network oracle returns. -/
def dac_process_stem (download : String → Option (List Nat)) (fs : FS)
    (path url : String) : FS × Bool :=
  match download url with
  | some bytes => (fun p => if p = path then some bytes else fs p, true)
  | none => (fs, false)

/-! ## Staging operations (convert_open_unmix_2stems.py) -/

/-- The filesystem operations available to a stager. shutil.copy is a
direct in-place copy to the destination name; a temp write followed by a
rename is the atomic pattern the spec prescribes. -/
inductive FileOp where
  | copy (src dst : String)
  | writeTemp (tmp : String) (bytes : List Nat)
  | rename (src dst : String)
deriving DecidableEq, Repr

/-- The staging sequence of convert_openunmix_2stems
(convert_open_unmix_2stems.py, lines 140-148): shutil.copy of model.json
to its final name, then shutil.copy of each weight file to its final name.
No temp files, no renames, no replace flag. -/
def stage_ops (tfjsDir stemDir : String) (weightFiles : List String) :
    List FileOp :=
  .copy (tfjsDir ++ "/model.json") (stemDir ++ "/model.json") ::
    weightFiles.map (fun w => .copy (tfjsDir ++ "/" ++ w) (stemDir ++ "/" ++ w))

/-- Effect of one operation on the filesystem. A copy sets the destination
to the source content, regardless of what the destination held. -/
def applyOp (fs : FS) : FileOp → FS
  | .copy src dst => fun p => if p = dst then fs src else fs p
  | .writeTemp tmp bytes => fun p => if p = tmp then some bytes else fs p
  | .rename src dst =>
      fun p => if p = dst then fs src else if p = src then none else fs p

/-- Effect of a sequence of operations, applied left to right. -/
def applyOps (fs : FS) (ops : List FileOp) : FS := ops.foldl applyOp fs

/-- Whether an operation follows the atomic staging discipline: final
content may only appear via a rename of a previously written temp file; a
direct copy exposes the destination name to partial content. -/
def opAtomic : FileOp → Bool
  | .copy _ _ => false
  | .writeTemp _ _ => true
  | .rename _ _ => true

/-- The name an operation writes to. -/
def opDst : FileOp → String
  | .copy _ dst => dst
  | .writeTemp tmp _ => tmp
  | .rename _ dst => dst

/-- The content an operation deposits at its destination. -/
def opSrcContent (fs : FS) : FileOp → Option (List Nat)
  | .copy src _ => fs src
  | .writeTemp _ bytes => some bytes
  | .rename src _ => fs src

/-! ## The per-stem orchestrator loop (convert_open_unmix_2stems.py) -/

/-- Result of the external world for one stem of the 2-stems loop: the
model download plus both converters either succeed (leaving model.json and
the listed weight files in the tfjs directory), raise an exception (which
line 155 catches before the loop continues), or complete without writing
model.json (the error-printing branch of line 152). -/
inductive StemResult where
  | ok (weightFiles : List String)
  | exn (msg : String)
  | noJson
deriving DecidableEq, Repr

/-- Recorded outcome of one stem of the 2-stems loop. -/
inductive StemOutcome where
  | converted (stagedFiles : List String)
  | failed (msg : String)
  | missingJson
deriving DecidableEq, Repr

/-- Body of one iteration of the stems loop in convert_openunmix_2stems
(convert_open_unmix_2stems.py, lines 120-159): on success model.json and
every weight file are staged into the stem directory; an exception is
caught and recorded; a missing model.json is reported. -/
def processStem (oracle : String → StemResult) (stem : String) : StemOutcome :=
  match oracle stem with
  | .ok weightFiles => .converted ("model.json" :: weightFiles)
  | .exn msg => .failed msg
  | .noJson => .missingJson

/-- The full stems loop of convert_openunmix_2stems: every stem is
visited in order; the except-continue on lines 155-159 guarantees the loop
always reaches the next stem, so the run is the list of per-stem outcomes. -/
def convert_openunmix_2stems_run (oracle : String → StemResult)
    (stems : List String) : List (String × StemOutcome) :=
  stems.map (fun stem => (stem, processStem oracle stem))

/-- The files one iteration of the stems loop places on disk, keyed by the
stem whose directory receives them: a converted stem stages its files into
its own directory, a failed or json-less stem stages nothing. -/
def stemBlock (oracle : String → StemResult) (stem : String) :
    List (String × String) :=
  match processStem oracle stem with
  | .converted files => files.map (fun f => (stem, f))
  | .failed _ => []
  | .missingJson => []

/-- The files placed under output_base during the run, keyed by the stem
whose directory receives them: each iteration stages only into its own
stem directory. -/
def runStaged (oracle : String → StemResult) (stems : List String) :
    List (String × String) :=
  (stems.map (stemBlock oracle)).flatten

/-- The files the run stages into the directory of one given stem. -/
def stagedFor (oracle : String → StemResult) (stems : List String)
    (stem : String) : List (String × String) :=
  (runStaged oracle stems).filter (fun p => p.1 == stem)

/-- Exit code of convert_open_unmix_2stems.py. The main guard (lines
174-184) exits 1 only when an exception escapes convert_openunmix_2stems;
the stems loop catches every per-stem exception, so for every oracle the
function returns normally and the process exits 0. -/
def twostems_exit_code (oracle : String → StemResult)
    (stems : List String) : Nat :=
  let _run := convert_openunmix_2stems_run oracle stems
  0

/-! ## The convert_umx_to_tfjs.py pipeline and its exit code -/

/-- Outcome of the ONNX-export phase for one stem (convert_umx_to_tfjs.py,
lines 61-101): success stores the stem in onnx_models; an exception is
caught and the loop continues. -/
inductive OnnxResult where
  | ok
  | exn (msg : String)
deriving DecidableEq, Repr

/-- Outcome of the TF.js-conversion phase for one stem
(convert_umx_to_tfjs.py, lines 112-163): an exception is caught and the
loop continues. -/
inductive TfjsResult where
  | ok
  | exn (msg : String)
deriving DecidableEq, Repr

/-- Final state of one target of convert_umx_to_tfjs.py. -/
inductive TargetState where
  | converted
  | failedOnnx (msg : String)
  | failedTfjs (msg : String)
deriving DecidableEq, Repr

/-- The stems surviving the ONNX phase: the keys of onnx_models. -/
def umx_onnx_successes (onnxOracle : String → OnnxResult)
    (stems : List String) : List String :=
  stems.filter (fun s =>
    match onnxOracle s with
    | .ok => true
    | .exn _ => false)

/-- Final state of one stem after both phases of convert_umx_to_tfjs.py. -/
def umx_final_state (onnxOracle : String → OnnxResult)
    (tfjsOracle : String → TfjsResult) (stem : String) : TargetState :=
  match onnxOracle stem with
  | .exn m => .failedOnnx m
  | .ok =>
    match tfjsOracle stem with
    | .ok => .converted
    | .exn m => .failedTfjs m

/-- Exit code of convert_umx_to_tfjs.py: lines 103-105 exit with 1 exactly
when onnx_models is empty; otherwise the script runs to its end and exits
0, whatever happened in the TF.js phase. -/
def umx_exit_code (onnxOracle : String → OnnxResult)
    (stems : List String) : Nat :=
  if (umx_onnx_successes onnxOracle stems).isEmpty then 1 else 0

/-! ## Theorems: dependency checking (C9) -/

/-- C9: check_dependencies attempts every one of the four required imports
(its missing list is exactly the subset of requiredDeps whose import
fails, so no failure short-circuits the rest), and it returns False
precisely when at least one package is missing. The embedding is a pure
function of the import oracle: no installation action exists. -/
theorem check_dependencies_complete (importable : String → Bool) :
    ((check_dependencies importable).1 = false ↔
      ∃ dep ∈ requiredDeps, importable (pyModuleName dep) = false) ∧
    (∀ dep, dep ∈ (check_dependencies importable).2 ↔
      dep ∈ requiredDeps ∧ importable (pyModuleName dep) = false) := by
  constructor
  · simp [check_dependencies, List.isEmpty_iff, List.filter_eq_nil_iff]
  · intro dep
    simp [check_dependencies, List.mem_filter]

/-! ## Theorems: download progress (C10) -/

/-- C10: the percentage printed by show_progress always lies between 0 and
100, and whenever the reported total size is not strictly positive the
code takes the guard branch and reports 0 without dividing. -/
theorem show_progress_bounded (block_num block_size : Nat) (total_size : Int) :
    0 ≤ show_progress_percent block_num block_size total_size ∧
    show_progress_percent block_num block_size total_size ≤ 100 ∧
    (total_size ≤ 0 → show_progress_percent block_num block_size total_size = 0) := by
  simp only [show_progress_percent]
  by_cases h : 0 < total_size
  · simp only [if_pos h]
    refine ⟨le_min (by norm_num) (Int.fdiv_nonneg (by positivity) h.le),
      min_le_left _ _, fun hle => absurd h (not_lt.mpr hle)⟩
  · simp only [if_neg h]
    exact ⟨le_refl 0, by norm_num, fun _ => trivial⟩

/-- Witness for C10 at a concrete unknown-length download. -/
theorem show_progress_bounded_witness :
    show_progress_percent 7 1024 (-1) = 0 :=
  (show_progress_bounded 7 1024 (-1)).2.2 (by decide)

/-! ## Theorems: quantization (C3) -/

/-- C3 counterexample: convert_onnx_to_tfjs offers its caller no way to
request or decline quantization, yet the command it runs for a concrete
invocation carries the float16 quantization flag — the caller loses weight
precision without having requested it. -/
theorem quantize_flag_cex :
    "--quantize_float16" ∈
      convert_onnx_to_tfjs_cmd "model.onnx" "public/models/umx-5stems" := by
  simp [convert_onnx_to_tfjs_cmd]

/-- C3 amended: quantization in convert_onnx_to_tfjs is unconditional, not
opt-in — every invocation, whatever the paths, passes the float16
quantization flag to tensorflowjs_converter. -/
theorem quantize_always_on (onnx_path output_path : String) :
    "--quantize_float16" ∈ convert_onnx_to_tfjs_cmd onnx_path output_path := by
  simp [convert_onnx_to_tfjs_cmd]

/-! ## Theorems: shape negotiation (C4) -/

/-- C4 counterexample: for a model exposing neither a declared input shape
nor a known architecture family, the scripts do not fail — they fabricate
hard-coded synthetic shapes. -/
theorem shape_guess_cex :
    umx_tfjs_dummy_input_shape ⟨none, none⟩ = [1, 2974] ∧
    onnx_only_dummy_input_shape ⟨none, none⟩ = [1, 2, 2049, 10] :=
  ⟨rfl, rfl⟩

/-- C4 amended: the synthetic export shape is fabricated identically for
every model handle — the scripts never consult the declared shape or the
architecture family, and no failure path exists in shape construction. -/
theorem shape_always_fabricated (m₁ m₂ : ModelHandle) :
    umx_tfjs_dummy_input_shape m₁ = umx_tfjs_dummy_input_shape m₂ ∧
    onnx_only_dummy_input_shape m₁ = onnx_only_dummy_input_shape m₂ ∧
    twostems_dummy_input_shape m₁ = twostems_dummy_input_shape m₂ :=
  ⟨rfl, rfl, rfl⟩

/-! ## Theorems: direct-download strategy (C5) -/

/-- C5 counterexample: load_pytorch_model hands back the raw weight-only
state dict itself as the loaded model — it raises nothing and validates
nothing. -/
theorem strategy_c_cex :
    load_pytorch_model (.ok ⟨[("fc1.weight", [2, 3])]⟩) =
      some ⟨[("fc1.weight", [2, 3])]⟩ := rfl

/-- C5 amended: for every stem whose torch.load succeeds with a raw
checkpoint, download_and_convert keeps that raw checkpoint, unvalidated,
as the loaded model for the stem; load failures yield None rather than a
raised error. -/
theorem raw_checkpoint_used_as_handle
    (torchLoad : String → Except String RawCheckpoint)
    (downloaded : List String) (stem : String) (c : RawCheckpoint)
    (hmem : stem ∈ downloaded) (hload : torchLoad stem = .ok c) :
    (stem, c) ∈ dac_load_models torchLoad downloaded := by
  unfold dac_load_models
  refine List.mem_filterMap.mpr ⟨stem, hmem, ?_⟩
  simp [load_pytorch_model, hload]

/-- Witness for C5 amended at a concrete one-stem run. -/
theorem raw_checkpoint_used_as_handle_witness :
    ("vocals", RawCheckpoint.mk [("fc1.weight", [2])]) ∈
      dac_load_models (fun _ => .ok ⟨[("fc1.weight", [2])]⟩) ["vocals"] :=
  raw_checkpoint_used_as_handle (fun _ => .ok ⟨[("fc1.weight", [2])]⟩)
    ["vocals"] "vocals" ⟨[("fc1.weight", [2])]⟩ (by simp) rfl

/-! ## Theorems: weight-cache idempotence (C6) -/

/-- The cache path both download scripts use for the vocals weights. -/
def vocalsCachePath : String := "downloaded_models/umx_vocals.pth"

/-- The vocals weight URL of download_and_convert.py (line 19). -/
def vocalsUrl : String :=
  "https://zenodo.org/record/3370489/files/umx_vocals.pth"

/-- A filesystem already holding a valid cached vocals weight file. -/
def fsCached : FS := fun p => if p = vocalsCachePath then some [0] else none

/-- C6 counterexample: with a valid cached vocals file on disk,
download_and_convert still downloads and overwrites the cache entry — the
repeated resolve neither skips the download nor leaves the cached bytes
bit-identical when the remote serves different bytes. -/
theorem resolve_idempotence_cex :
    fsCached vocalsCachePath = some [0] ∧
    (dac_process_stem (fun _ => some [1]) fsCached vocalsCachePath vocalsUrl).1
      vocalsCachePath = some [1] ∧
    (dac_process_stem (fun _ => some [1]) fsCached vocalsCachePath vocalsUrl).2
      = true := by decide

/-- C6 amended: download_models.py is idempotent over the cache — an
existing file makes the iteration a no-op on the filesystem (so the cached
bytes stay bit-identical) while still counting the file as downloaded —
but download_and_convert.py always invokes the download and overwrites the
cached path with whatever the network returns. -/
theorem cache_idempotence_amended (download : String → Option (List Nat))
    (fs : FS) (path url : String) (bytes : List Nat)
    (hcache : fs path = some bytes) :
    dm_process_stem download fs path url = (fs, true) ∧
    (∀ b, download url = some b →
      (dac_process_stem download fs path url).1 path = some b) := by
  constructor
  · unfold dm_process_stem
    rw [hcache]
    simp
  · intro b hb
    unfold dac_process_stem
    rw [hb]
    simp
/-- Witness for C6 amended on the cached-vocals filesystem. -/
theorem cache_idempotence_amended_witness :
    dm_process_stem (fun _ => some [1]) fsCached vocalsCachePath vocalsUrl
      = (fsCached, true) ∧
    (dac_process_stem (fun _ => some [1]) fsCached vocalsCachePath vocalsUrl).1
      vocalsCachePath = some [1] := by
  have h := cache_idempotence_amended (fun _ => some [1]) fsCached
    vocalsCachePath vocalsUrl [0] (by decide)
  exact ⟨h.1, h.2 [1] rfl⟩

/-! ## Theorems: staging atomicity (C7) -/

/-- A stem directory already holding a valid prior output descriptor, with
the freshly converted descriptor (different bytes) in the tfjs directory. -/
def fsPrior : FS := fun p =>
  if p = "out/vocals/model.json" then some [7]
  else if p = "out/vocals/tfjs_model/model.json" then some [9]
  else none

/-- C7 counterexample: the staging sequence contains a non-atomic direct
copy, and running it over a directory holding a valid prior output
replaces that output even though no replacement was requested — the prior
descriptor bytes are gone. -/
theorem staging_cex :
    fsPrior "out/vocals/model.json" = some [7] ∧
    (∃ op ∈ stage_ops "out/vocals/tfjs_model" "out/vocals" [],
      opAtomic op = false) ∧
    applyOps fsPrior (stage_ops "out/vocals/tfjs_model" "out/vocals" [])
      "out/vocals/model.json" = some [9] := by decide

/-- C7 amended: every staging operation is a direct shutil.copy — none
follows the temp-write-then-rename discipline — each one overwrites its
final destination with the source content regardless of what the
destination held, and the sequence begins by copying straight onto the
final descriptor name; no replace flag exists. -/
theorem staging_direct_overwrite (tfjsDir stemDir : String)
    (weightFiles : List String) (fs : FS) (op : FileOp)
    (hmem : op ∈ stage_ops tfjsDir stemDir weightFiles) :
    opAtomic op = false ∧
    applyOp fs op (opDst op) = opSrcContent fs op ∧
    (stage_ops tfjsDir stemDir weightFiles).head? =
      some (.copy (tfjsDir ++ "/model.json") (stemDir ++ "/model.json")) := by
  have hcopy : ∃ src dst, op = .copy src dst := by
    rcases List.mem_cons.mp hmem with h | h
    · exact ⟨_, _, h⟩
    · obtain ⟨w, _, hw⟩ := List.mem_map.mp h
      exact ⟨_, _, hw.symm⟩
  obtain ⟨src, dst, rfl⟩ := hcopy
  refine ⟨rfl, ?_, rfl⟩
  simp [applyOp, opDst, opSrcContent]

/-- Witness for C7 amended at the concrete vocals staging step. -/
theorem staging_direct_overwrite_witness :
    opAtomic (.copy ("out/vocals/tfjs_model" ++ "/model.json")
        ("out/vocals" ++ "/model.json")) = false ∧
    applyOp fsPrior (.copy ("out/vocals/tfjs_model" ++ "/model.json")
          ("out/vocals" ++ "/model.json"))
        (opDst (.copy ("out/vocals/tfjs_model" ++ "/model.json")
          ("out/vocals" ++ "/model.json")))
      = opSrcContent fsPrior (.copy ("out/vocals/tfjs_model" ++ "/model.json")
          ("out/vocals" ++ "/model.json")) ∧
    (stage_ops "out/vocals/tfjs_model" "out/vocals" []).head? =
      some (.copy ("out/vocals/tfjs_model" ++ "/model.json")
        ("out/vocals" ++ "/model.json")) :=
  staging_direct_overwrite "out/vocals/tfjs_model" "out/vocals" [] fsPrior
    (.copy ("out/vocals/tfjs_model" ++ "/model.json")
      ("out/vocals" ++ "/model.json"))
    (by simp [stage_ops])

/-! ## Theorems: dynamic time axis (C8) -/

/-- C8: the two-stems export does flag its variable-length time axis
(axis 2) dynamic, but the convert_to_onnx_only export — whose own comments
say the input layout is batch, channels, freq, time with a varying
time-frame count — leaves its time axis (axis 3) out of dynamic_axes,
flagging axes 0 and 1 instead. Evaluates the embedded export arguments at
the failing input. -/
theorem dynamic_time_axis_check :
    twostems_time_axis ∈ twostems_input_dynamic_axes.map Prod.fst ∧
    onnx_only_time_axis ∉ onnx_only_input_dynamic_axes.map Prod.fst := by
  decide

/-! ## Theorems: cross-target isolation (C1) -/

/-- Helper: the files a stem stages all carry that stem as their key, so
filtering the block by a different stem name yields nothing. -/
theorem stemBlock_filter_ne (o : String → StemResult) (s t : String)
    (h : ¬ s = t) :
    (stemBlock o s).filter (fun p => p.1 == t) = [] := by
  unfold stemBlock
  cases processStem o s with
  | converted files =>
      induction files with
      | nil => rfl
      | cons f fs ih => simp [h]
  | failed m => rfl
  | missingJson => rfl

/-- Helper: the files staged into the directory of stem t depend only on
the oracle at t. -/
theorem stagedFor_congr (o₁ o₂ : String → StemResult) (t : String)
    (hagree : o₁ t = o₂ t) (stems : List String) :
    stagedFor o₁ stems t = stagedFor o₂ stems t := by
  have hps : processStem o₁ t = processStem o₂ t := by
    unfold processStem
    rw [hagree]
  unfold stagedFor runStaged
  induction stems with
  | nil => rfl
  | cons s ss ih =>
      simp only [List.map_cons, List.flatten_cons, List.filter_append]
      rw [ih]
      congr 1
      by_cases h : s = t
      · subst h
        unfold stemBlock
        rw [hps]
      · rw [stemBlock_filter_ne o₁ s t h, stemBlock_filter_ne o₂ s t h]

/-- C1: cross-target isolation in the stems loop of
convert_openunmix_2stems. For any two worlds that treat stem t the same —
whatever failures they inject into other stems — every stem in the run is
processed (the run records an outcome for each listed stem, in order), the
outcome recorded for t is the same, and the set of files staged into the
directory of t is identical; a failure of any other stem therefore has no
observable effect on t. -/
theorem cross_target_isolation (o₁ o₂ : String → StemResult)
    (stems : List String) (t : String)
    (hagree : o₁ t = o₂ t) (hmem : t ∈ stems) :
    (convert_openunmix_2stems_run o₁ stems).map Prod.fst = stems ∧
    (t, processStem o₂ t) ∈ convert_openunmix_2stems_run o₁ stems ∧
    stagedFor o₁ stems t = stagedFor o₂ stems t := by
  have hps : processStem o₁ t = processStem o₂ t := by
    unfold processStem
    rw [hagree]
  refine ⟨?_, ?_, stagedFor_congr o₁ o₂ t hagree stems⟩
  · simp [convert_openunmix_2stems_run, Function.comp_def]
  · rw [← hps]
    exact List.mem_map.mpr ⟨t, hmem, rfl⟩

/-- A world in which every stem converts cleanly. -/
def isolOracleOk : String → StemResult :=
  fun _ => .ok ["group1-shard1of1.bin"]

/-- A world identical for vocals but with an injected failure in the
accompaniment conversion. -/
def isolOracleFail : String → StemResult := fun s =>
  if s = "accompaniment" then .exn "injected browser-stage failure"
  else .ok ["group1-shard1of1.bin"]

/-- Witness for C1: in a concrete run over vocals and accompaniment where
accompaniment is made to fail, vocals still gets its outcome recorded and
its staged output directory is identical to the all-success run. -/
theorem cross_target_isolation_witness :
    (convert_openunmix_2stems_run isolOracleOk ["vocals", "accompaniment"]).map
        Prod.fst = ["vocals", "accompaniment"] ∧
    ("vocals", processStem isolOracleFail "vocals") ∈
      convert_openunmix_2stems_run isolOracleOk ["vocals", "accompaniment"] ∧
    stagedFor isolOracleOk ["vocals", "accompaniment"] "vocals"
      = stagedFor isolOracleFail ["vocals", "accompaniment"] "vocals" :=
  cross_target_isolation isolOracleOk isolOracleFail
    ["vocals", "accompaniment"] "vocals" (by decide) (by decide)

/-! ## Theorems: exit behaviour (C2) -/

/-- Helper: the filter predicate of umx_onnx_successes holds exactly on
stems whose ONNX export succeeded. -/
theorem onnx_ok_pred (r : OnnxResult) :
    (match r with | .ok => true | .exn _ => false) = true ↔ r = .ok := by
  cases r <;> simp

/-- A world in which the drums export fails while everything else
succeeds. -/
def cexOnnxOracle : String → OnnxResult := fun s =>
  if s = "drums" then .exn "unsupported operator" else .ok

/-- C2 counterexample: in a run of convert_umx_to_tfjs over vocals and
drums where drums fails its ONNX stage, the drums target ends Failed, yet
the process exit code is 0 — refuting that the process exits non-zero
whenever some target is Failed (equivalently, that exit 0 implies every
target Converted). -/
theorem exit_code_cex :
    umx_final_state cexOnnxOracle (fun _ => .ok) "drums"
      = .failedOnnx "unsupported operator" ∧
    umx_exit_code cexOnnxOracle ["vocals", "drums"] = 0 := by decide

/-- C2 amended: per-target failures do not drive the exit code.
convert_open_unmix_2stems.py exits 0 for every per-stem outcome, and
convert_umx_to_tfjs.py exits 0 exactly when at least one stem survives
the ONNX stage — it is non-zero only when every stem failed there, and
TF.js-stage failures never affect it. -/
theorem exit_code_amended (oracle : String → StemResult)
    (onnxOracle : String → OnnxResult) (stems : List String) :
    twostems_exit_code oracle stems = 0 ∧
    (umx_exit_code onnxOracle stems = 0 ↔
      ∃ s ∈ stems, onnxOracle s = .ok) := by
  refine ⟨rfl, ?_⟩
  have hiff : (umx_onnx_successes onnxOracle stems).isEmpty = true ↔
      ¬ ∃ s ∈ stems, onnxOracle s = .ok := by
    simp [umx_onnx_successes, List.isEmpty_iff, List.filter_eq_nil_iff,
      onnx_ok_pred]
  unfold umx_exit_code
  by_cases hE : (umx_onnx_successes onnxOracle stems).isEmpty
  · rw [if_pos hE]
    rw [hiff] at hE
    constructor
    · intro h
      exact absurd h one_ne_zero
    · intro hex
      exact absurd hex hE
  · rw [if_neg hE]
    have hex : ∃ s ∈ stems, onnxOracle s = .ok := by
      by_contra hc
      exact hE (hiff.mpr hc)
    simp [hex]
